import Mathlib

/-!
Verification of the `vxsdr_examples` looped-transmit program.

The definitions below are a shallow embedding of the C++ sources:
  * `interpret_bracketed_list` and its helpers embed the bracketed list
    parser of `host_radio_options.cpp` (lines 49-88);
  * `pps_set_time` embeds the PPS branch of `set_common_options`
    (lines 156-173);
  * `mainRun` (with its stage functions `set_common_options`,
    `set_tx_1ch_options`, `main_checks`, `main_schedule`, `tx_send_loop`)
    embeds `main` of the tx-loop-file example program.

Machine reals (`double`) are modelled as rationals; times are modelled as
nonnegative millisecond counts.  Device responses (buffer info, hello,
clock reads, upload counts, loop-start result) are inputs of the model.
-/

namespace VxsdrExamples

/-! ## Bracketed list parser (`interpret_bracketed_list`) -/

/-- Matching bracket characters, in the same order, from the source:
`left_brackets = "[({"`. -/
def left_brackets : List Char := ['[', '(', Char.ofNat 123]

/-- `right_brackets = "])}"` from the source (`}` is codepoint 125). -/
def right_brackets : List Char := [']', ')', Char.ofNat 125]

/-- The bracket-matching loop of `interpret_bracketed_list`: the first index
`i` with `list[0] == left_brackets[i] and list[list.size()-1] == right_brackets[i]`,
if any. -/
def matching_bracket (first last : Char) : Option Nat :=
  (List.range left_brackets.length).find?
    (fun i => (left_brackets.getD i ' ' == first) && (right_brackets.getD i ' ' == last))

/-- Whitespace as accepted by `strtod` (via C `isspace`). -/
def is_space (c : Char) : Bool :=
  c == ' ' || c == '\t' || c == '\n' || c == '\x0b' || c == '\x0c' || c == '\r'

/-- Numeric value of a decimal digit character. -/
def digit_val (c : Char) : Nat := c.toNat - '0'.toNat

/-- Value of a decimal digit string, most significant digit first. -/
def digits_to_nat (ds : List Char) : Nat :=
  ds.foldl (fun a c => 10 * a + digit_val c) 0

/-- Modelled from the spec: `std::stod` is the C library `strtod`, which is
not part of this repository.  This models its decimal grammar: optional
whitespace, optional sign, digits with an optional decimal point (at least
one digit required), and an optional exponent part that is ignored when no
digit follows the `e`/`E` (strtod backtracks there).  The longest valid
prefix is converted and trailing characters are ignored, exactly as
`std::stod` called without a position argument.  Returns `none` when no
conversion is possible (`std::invalid_argument` in the source, which the
parser turns into an abort).  The hexadecimal, infinity and NaN forms of
`strtod` are outside the inputs considered here and are not modelled. -/
def stod (s : List Char) : Option ℚ :=
  let s1 := s.dropWhile is_space
  let sign : ℤ := match s1 with
    | '-' :: _ => -1
    | _ => 1
  let s2 : List Char := match s1 with
    | '-' :: r => r
    | '+' :: r => r
    | _ => s1
  let ipart := s2.takeWhile Char.isDigit
  let s3 := s2.dropWhile Char.isDigit
  let fpart : List Char := match s3 with
    | '.' :: r => r.takeWhile Char.isDigit
    | _ => []
  let s4 : List Char := match s3 with
    | '.' :: r => r.dropWhile Char.isDigit
    | _ => s3
  if ipart.isEmpty && fpart.isEmpty then none
  else
    let e : ℤ := match s4 with
      | c :: r =>
        if c == 'e' || c == 'E' then
          match r with
          | '-' :: r2 => if (r2.takeWhile Char.isDigit).isEmpty then 0
                         else -(digits_to_nat (r2.takeWhile Char.isDigit) : ℤ)
          | '+' :: r2 => if (r2.takeWhile Char.isDigit).isEmpty then 0
                         else (digits_to_nat (r2.takeWhile Char.isDigit) : ℤ)
          | r2 => if (r2.takeWhile Char.isDigit).isEmpty then 0
                  else (digits_to_nat (r2.takeWhile Char.isDigit) : ℤ)
        else 0
      | [] => 0
    -- value = sign * (ipart.fpart) * 10^e, written over `mkRat` so that it
    -- evaluates by kernel reduction: the mantissa digits form the integer
    -- `digits_to_nat (ipart ++ fpart)` scaled by `10 ^ (e - fpart.length)`
    let m : Nat := digits_to_nat (ipart ++ fpart)
    let e10 : ℤ := e - fpart.length
    some (if 0 ≤ e10 then mkRat (sign * ((m * 10 ^ e10.toNat : Nat) : ℤ)) 1
          else mkRat (sign * (m : ℤ)) (10 ^ (-e10).toNat))

/-- The token accumulator of the `while (std::getline(iss, number, delim))`
loop: `cur` is the partial token read so far.  At end of input `getline`
fails exactly when nothing was extracted, so a nonempty partial token is
still produced. -/
def getline_aux (delim : Char) (cur : List Char) : List Char → List (List Char)
  | [] => if cur.isEmpty then [] else [cur.reverse]
  | c :: cs =>
      if c = delim then cur.reverse :: getline_aux delim [] cs
      else getline_aux delim (c :: cur) cs

/-- The sequence of tokens produced by repeated `std::getline` with
delimiter `delim` on the given character stream. -/
def getline_tokens (delim : Char) (cs : List Char) : List (List Char) :=
  getline_aux delim [] cs

/-- The parsing loop body of `interpret_bracketed_list`: convert each token
with `stod`, aborting on the first failure (the source calls `exit(1)` from
the `catch` block, so nothing is returned on failure). -/
def parse_tokens : List (List Char) → Option (List ℚ)
  | [] => some []
  | t :: ts =>
      match stod t, parse_tokens ts with
      | some x, some xs => some (x :: xs)
      | _, _ => none

/-- Embedding of `interpret_bracketed_list` (source lines 49-88).  `none`
models the `exit(1)` failure paths: input shorter than 2 characters, no
matching bracket pair, or a token `std::stod` cannot convert. -/
def interpret_bracketed_list (list : String) (delim : Char) : Option (List ℚ) :=
  let cs := list.data
  if cs.length < 2 then none
  else
    match matching_bracket (cs.headD ' ') (cs.getLastD ' ') with
    | none => none
    | some _ => parse_tokens (getline_tokens delim ((cs.drop 1).dropLast))

/-! ## Clock synchronization (`set_common_options`, PPS branch) -/

/-- `constexpr unsigned max_host_clock_error_ms = 200` (source line 157). -/
def max_host_clock_error_ms : Nat := 200

/-- `std::chrono::ceil<std::chrono::seconds>` on a time expressed in
milliseconds: the least multiple of 1000 that is `≥ t`. -/
def ceil_seconds (t : Nat) : Nat := 1000 * ((t + 999) / 1000)

/-- The target instant `t_set` carried by the set-clock-at-next-PPS
instruction, for a host time `t_now_ms` in milliseconds (source lines
158-168): `msecs` is the sub-second offset of host time; if
`msecs < 1000 - max_host_clock_error_ms` the target is
`ceil<seconds>(t_now)`, otherwise `ceil<seconds>(t_now) + 1s`. -/
def pps_set_time (t_now_ms : Nat) : Nat :=
  let msecs := t_now_ms - 1000 * (t_now_ms / 1000)
  if msecs < 1000 - max_host_clock_error_ms then ceil_seconds t_now_ms
  else ceil_seconds t_now_ms + 1000

/-! ## The tx-loop-file program (`main`)

Device-mutating commands issued to the radio are recorded as `Event`s;
values the device reports back (`get_tx_rate`, `get_buffer_info`,
`hello`/`compute_sample_granularity`, `get_time_now`, `put_tx_data`,
`tx_loop`) are inputs of the model, collected in `RunInput`. -/

/-- A device-mutating command issued to the radio, in program order. -/
inductive Event where
  | clockSet   -- `set_time_now` / `set_time_next_pps` in `set_common_options`
  | rateSet    -- `set_tx_rate`
  | freqSet    -- `set_tx_freq`
  | gainSet    -- `set_tx_gain`
  | iqBiasSet  -- `set_tx_iq_bias`
  | iqCorrSet  -- `set_tx_iq_corr`
  | upload     -- `put_tx_data`
  | loopStart  -- `tx_loop`
  deriving DecidableEq, Repr

/-- The arguments of the `tx_loop` call: `tx_loop(t_start, n_samples, pri, n_pulses)`.
`t_start` is in milliseconds, `pri_ns` in nanoseconds. -/
structure LoopArgs where
  t_start : Nat
  n_samples : Nat
  pri_ns : ℤ
  n_pulses : ℤ
  deriving DecidableEq, Repr

/-- Observable outcome of a run of `main`: the device commands issued, the
process exit status, whether the granularity gap warning was printed,
whether the "error sending waveform data" message was printed, the
available/needed counts of a buffer-fit failure report, and the arguments
of the `tx_loop` call when one was made. -/
structure RunOutput where
  events : List Event
  exit_code : ℤ
  gap_warning : Bool
  upload_error : Bool
  buffer_report : Option (Nat × Nat)
  loop_args : Option LoopArgs
  deriving DecidableEq, Repr

/-- Inputs of a run of `main`: command-line values and the device's
responses.  `read_count` is the `read_cplx_16` result (0 on failure;
otherwise it equals `tx_wf.size()`, since `tx_wf` starts empty).
`tx_rate` is `get_tx_rate().value_or(-1)`.  `buffer_bytes` is
`get_buffer_info()->at(1)`.  `granularity` is
`compute_sample_granularity(hello()->at(5))` when `hello()` has a value.
`time_now_1`/`time_now_2` are the two `get_time_now()` reads, in
milliseconds.  `n_sent` is the `put_tx_data` return value and
`tx_loop_ok` the `tx_loop` result. -/
structure RunInput where
  duration_sec : ℚ
  pri_sec : ℚ
  read_count : Nat
  time_source : String
  tx_iq_bias : Option String
  tx_iq_corr : Option String
  tx_rate : ℚ
  buffer_bytes : Option Nat
  granularity : Option Nat
  time_now_1 : Option Nat
  time_now_2 : Option Nat
  n_sent : Nat
  tx_loop_ok : Bool

/-- `std::llround`: round to nearest, halfway cases away from zero.
Written as integer division on the numerator and denominator so that it
evaluates by kernel reduction; `llround_eq` proves it equal to the usual
`⌊x + 1/2⌋` / `⌈x - 1/2⌉` characterization. -/
def llround (x : ℚ) : ℤ :=
  if 0 ≤ x then (2 * x.num + (x.den : ℤ)) / (2 * (x.den : ℤ))
  else -((2 * (-x).num + ((-x).den : ℤ)) / (2 * ((-x).den : ℤ)))

/-- The repetition-count computation of `main` (source lines 410-414):
`n_pulses = 0`, overwritten with `llround(duration_sec / pri_sec)` when
`pri_sec > 0`. -/
def n_pulses_calc (duration_sec pri_sec : ℚ) : ℤ :=
  if 0 < pri_sec then llround (duration_sec / pri_sec) else 0

/-- Modelled from the spec: `sizeof(vxsdr::wire_sample)`; `vxsdr.hpp` is the
external device library, not part of this repository.  A wire sample is a
complex pair of 16-bit signed integers (spec section 3), hence 4 bytes. -/
def wire_sample_bytes : Nat := 4

/-- The buffer-fit check of `main` (source lines 475-480):
`tx_buffer_samps = tx_buffer_size_bytes / sizeof(vxsdr::wire_sample)`;
failure (with the reported `(available, needed)` pair) exactly when
`tx_buffer_samps < n_samples`. -/
def buffer_fit (n_samples tx_buffer_size_bytes : Nat) : Option (Nat × Nat) :=
  let tx_buffer_samps := tx_buffer_size_bytes / wire_sample_bytes
  if tx_buffer_samps < n_samples then some (tx_buffer_samps, n_samples) else none

/-- The granularity check of `main` (source lines 485-492): the gap warning
is printed when `hello()` reported a value, `pri_sec == 0.0`, and
`n_samples % granularity != 0`; when `hello()` has no value the whole
check is skipped. -/
def granularity_gap_warning (granularity : Option Nat) (pri_sec : ℚ) (n_samples : Nat) : Bool :=
  match granularity with
  | some g => decide (pri_sec = 0 ∧ n_samples % g ≠ 0)
  | none => false

/-- Embedding of `set_common_options` (source lines 146-181) at the event
level: the `time_source` option always has a value (its default is
`"host"`); it is lowercased, then `"host"` issues `set_time_now` and
`"pps"` issues `set_time_next_pps` (both clock-set commands; a `false`
device reply only prints an error), and any other value calls `exit(1)`
before any command is issued.  Returns the commands issued and whether the
function returned normally. -/
def set_common_options (time_source : String) : List Event × Bool :=
  let ts := time_source.data.map Char.toLower
  if ts = "host".data then ([Event.clockSet], true)
  else if ts = "pps".data then ([Event.clockSet], true)
  else ([], false)

/-- The commands always issued by `set_tx_1ch_options`: `rate` and `freq`
are required options and `tx_gain` has a default, so `set_tx_rate`,
`set_tx_freq` and `set_tx_gain` are issued on every run that parses. -/
def tx_base_events : List Event := [Event.rateSet, Event.freqSet, Event.gainSet]

/-- The `tx_iq_corr` tail of `set_tx_1ch_options` (source lines 326-339):
when present, the option string goes through `interpret_bracketed_list`
(whose failure is `exit(1)`, aborting with the commands issued so far); a
list of length other than 4 only prints an error; otherwise
`set_tx_iq_corr` is issued. -/
def set_tx_corr (acc : List Event) (tx_iq_corr : Option String) : List Event × Bool :=
  match tx_iq_corr with
  | none => (acc, true)
  | some s =>
    match interpret_bracketed_list s ',' with
    | none => (acc, false)
    | some x => if x.length = 4 then (acc ++ [Event.iqCorrSet], true) else (acc, true)

/-- Embedding of `set_tx_1ch_options` (source lines 256-342) at the event
level.  The `rate` and `freq` options are required and `tx_gain` has a
default, so `set_tx_rate`, `set_tx_freq` and `set_tx_gain` are always
issued (a `false` device reply only prints an error); the optional
`tx_ant` port selection is not used in the modelled configuration.
`tx_iq_bias` (2 values) and `tx_iq_corr` (4 values) go through
`interpret_bracketed_list`, whose failure is `exit(1)`. -/
def set_tx_1ch_options (tx_iq_bias tx_iq_corr : Option String) : List Event × Bool :=
  match tx_iq_bias with
  | none => set_tx_corr tx_base_events tx_iq_corr
  | some s =>
    match interpret_bracketed_list s ',' with
    | none => (tx_base_events, false)
    | some x =>
      if x.length = 2 then set_tx_corr (tx_base_events ++ [Event.iqBiasSet]) tx_iq_corr
      else set_tx_corr tx_base_events tx_iq_corr

/-- Embedding of `set_network_options` (source lines 344-352): the only
device command, `set_max_payload_bytes`, is issued only when the optional
`payload_size` option is given; it is absent in the modelled
configuration. -/
def set_network_options : List Event := []

/-- The tail of `main` from the `put_tx_data` upload on (source lines
515-531): the waveform is uploaded; a sent-count different from
`n_samples` prints "error sending waveform data" but does not return;
`tx_loop(t_start, n_samples, pri, n_pulses)` is issued unconditionally
with `t_start = ceil<seconds>(time) + 1s` from the second `get_time_now`
read and `pri` the pri rounded to nanoseconds; a `false` reply returns 1,
otherwise the program sleeps and exits 0.  A missing second time read
makes `.value()` throw, caught in `main` with exit code 3. -/
def tx_send_loop (events : List Event) (gap_warning : Bool) (n_samples : Nat)
    (pri_sec : ℚ) (n_pulses : ℤ) (time_now_2 : Option Nat) (n_sent : Nat)
    (tx_loop_ok : Bool) : RunOutput :=
  match time_now_2 with
  | none => ⟨events, 3, gap_warning, false, none, none⟩
  | some t =>
      ⟨events ++ [Event.upload, Event.loopStart],
       if tx_loop_ok then 0 else 1,
       gap_warning,
       decide (n_sent ≠ n_samples),
       none,
       some ⟨ceil_seconds t + 1000, n_samples, llround (1000000000 * pri_sec), n_pulses⟩⟩

/-- The granularity check and first time read of `main` (source lines
485-513): the gap warning is computed (and printed) before the time reads;
a missing first `get_time_now` value returns 1. -/
def main_schedule (inp : RunInput) (events : List Event) : RunOutput :=
  match inp.time_now_1 with
  | none => ⟨events, 1, granularity_gap_warning inp.granularity inp.pri_sec inp.read_count,
             false, none, none⟩
  | some _ =>
      tx_send_loop events
        (granularity_gap_warning inp.granularity inp.pri_sec inp.read_count)
        inp.read_count inp.pri_sec
        (n_pulses_calc inp.duration_sec inp.pri_sec)
        inp.time_now_2 inp.n_sent inp.tx_loop_ok

/-- The post-setup validation of `main` (source lines 457-492): the
waveform-duration-versus-pri check (`n_samples / get_tx_rate().value_or(-1)`,
modelled with exact rational division), the buffer-info query, and the
buffer-fit check.  Each failure returns 1 without issuing further device
commands. -/
def main_checks (inp : RunInput) (events : List Event) : RunOutput :=
  if 0 < inp.pri_sec ∧ inp.pri_sec < (inp.read_count : ℚ) / inp.tx_rate then
    ⟨events, 1, false, false, none, none⟩
  else
    match inp.buffer_bytes with
    | none => ⟨events, 1, false, false, none, none⟩
    | some tx_buffer_size_bytes =>
        match buffer_fit inp.read_count tx_buffer_size_bytes with
        | some rep => ⟨events, 1, false, false, some rep, none⟩
        | none => main_schedule inp events

/-- The device-setup phase of `main` (source lines 450-455):
`set_common_options`, `set_network_options`, `set_tx_1ch_options`, in that
order; an `exit(1)` inside one of them ends the process with the commands
issued so far. -/
def main_setup (inp : RunInput) : RunOutput :=
  match set_common_options inp.time_source with
  | (ev1, false) => ⟨ev1, 1, false, false, none, none⟩
  | (ev1, true) =>
      match set_tx_1ch_options inp.tx_iq_bias inp.tx_iq_corr with
      | (ev2, false) => ⟨ev1 ++ set_network_options ++ ev2, 1, false, false, none, none⟩
      | (ev2, true) => main_checks inp (ev1 ++ set_network_options ++ ev2)

/-- Embedding of `main` of the tx-loop-file program (source lines 380-536).
The input checks (source lines 398-430) run before the radio object exists:
non-positive duration, negative pri, and a failed or empty waveform file
read each return 1 with no device command issued.  (`n_samples == 0` is
checked separately in the source but coincides with `read_count = 0`,
since `tx_wf` starts empty.) -/
def mainRun (inp : RunInput) : RunOutput :=
  if inp.duration_sec ≤ 0 then ⟨[], 1, false, false, none, none⟩
  else if inp.pri_sec < 0 then ⟨[], 1, false, false, none, none⟩
  else if inp.read_count = 0 then ⟨[], 1, false, false, none, none⟩
  else main_setup inp

/-! ## Helper lemmas -/

lemma floor_add_half (y : ℚ) : ⌊y + 1 / 2⌋ = (2 * y.num + (y.den : ℤ)) / (2 * (y.den : ℤ)) := by
  have hden : (y.den : ℚ) ≠ 0 := Nat.cast_ne_zero.mpr y.den_nz
  have hrw : y + 1 / 2 = ((2 * y.num + (y.den : ℤ) : ℤ) : ℚ) / ((2 * y.den : ℕ) : ℚ) := by
    conv_lhs => rw [← Rat.num_div_den y]
    push_cast
    field_simp
    ring
  rw [hrw, Rat.floor_intCast_div_natCast]
  push_cast
  ring_nf

lemma llround_eq (x : ℚ) :
    llround x = if 0 ≤ x then ⌊x + 1 / 2⌋ else ⌈x - 1 / 2⌉ := by
  unfold llround
  split
  · rw [floor_add_half]
  · rw [show x - 1 / 2 = -(-x + 1 / 2) by ring, Int.ceil_neg, floor_add_half]

lemma parse_tokens_isSome (ts : List (List Char)) :
    (parse_tokens ts).isSome ↔ ∀ t ∈ ts, (stod t).isSome := by
  induction ts with
  | nil => simp [parse_tokens]
  | cons t ts ih =>
    simp only [parse_tokens]
    cases hs : stod t <;> cases hp : parse_tokens ts <;>
      simp_all [List.forall_mem_cons]

lemma parse_tokens_forall2 (ts : List (List Char)) (r : List ℚ)
    (h : parse_tokens ts = some r) :
    List.Forall₂ (fun t x => stod t = some x) ts r := by
  induction ts generalizing r with
  | nil =>
    simp only [parse_tokens, Option.some.injEq] at h
    subst h
    exact List.Forall₂.nil
  | cons t ts ih =>
    simp only [parse_tokens] at h
    cases hs : stod t <;> cases hp : parse_tokens ts <;> rw [hs, hp] at h
    · exact Option.noConfusion h
    · exact Option.noConfusion h
    · exact Option.noConfusion h
    · obtain rfl := Option.some.inj h
      exact List.Forall₂.cons hs (ih _ hp)

lemma set_common_options_events (ts : String) (ev : List Event)
    (h : set_common_options ts = (ev, true)) : ev = [Event.clockSet] := by
  simp only [set_common_options] at h
  split at h <;> [skip; split at h] <;> first | (cases h; rfl) | simp at h

lemma set_tx_corr_events (acc : List Event) (c : Option String) (ev : List Event) (ok : Bool)
    (h : set_tx_corr acc c = (ev, ok)) : ev = acc ∨ ev = acc ++ [Event.iqCorrSet] := by
  unfold set_tx_corr at h
  split at h
  · cases h; exact Or.inl rfl
  · split at h
    · cases h; exact Or.inl rfl
    · split at h
      · cases h; exact Or.inr rfl
      · cases h; exact Or.inl rfl

lemma set_tx_1ch_options_events (b c : Option String) (ev : List Event) (ok : Bool)
    (h : set_tx_1ch_options b c = (ev, ok)) :
    ∀ e ∈ ev, e = Event.rateSet ∨ e = Event.freqSet ∨ e = Event.gainSet ∨
      e = Event.iqBiasSet ∨ e = Event.iqCorrSet := by
  have base : ∀ e ∈ tx_base_events, e = Event.rateSet ∨ e = Event.freqSet ∨
      e = Event.gainSet ∨ e = Event.iqBiasSet ∨ e = Event.iqCorrSet := by
    intro e he
    simp only [tx_base_events, List.mem_cons, List.mem_singleton, List.not_mem_nil,
      or_false] at he
    tauto
  unfold set_tx_1ch_options at h
  split at h
  · rcases set_tx_corr_events _ _ _ _ h with rfl | rfl
    · exact base
    · intro e he
      rcases List.mem_append.mp he with he | he
      · exact base e he
      · simp only [List.mem_singleton] at he; tauto
  · split at h
    · cases h; exact base
    · split at h
      · rcases set_tx_corr_events _ _ _ _ h with rfl | rfl <;> intro e he
        · rcases List.mem_append.mp he with he | he
          · exact base e he
          · simp only [List.mem_singleton] at he; tauto
        · rcases List.mem_append.mp he with he | he
          · rcases List.mem_append.mp he with he | he
            · exact base e he
            · simp only [List.mem_singleton] at he; tauto
          · simp only [List.mem_singleton] at he; tauto
      · rcases set_tx_corr_events _ _ _ _ h with rfl | rfl
        · exact base
        · intro e he
          rcases List.mem_append.mp he with he | he
          · exact base e he
          · simp only [List.mem_singleton] at he; tauto

lemma set_tx_1ch_options_base_mem (b c : Option String) (ev : List Event) (ok : Bool)
    (h : set_tx_1ch_options b c = (ev, ok)) :
    Event.rateSet ∈ ev ∧ Event.freqSet ∈ ev ∧ Event.gainSet ∈ ev := by
  have base : ∀ ev', ev' = tx_base_events ∨ ev' = tx_base_events ++ [Event.iqBiasSet] →
      ∀ ev'', ev'' = ev' ∨ ev'' = ev' ++ [Event.iqCorrSet] →
      Event.rateSet ∈ ev'' ∧ Event.freqSet ∈ ev'' ∧ Event.gainSet ∈ ev'' := by
    rintro ev' (rfl | rfl) ev'' (rfl | rfl) <;> simp [tx_base_events]
  unfold set_tx_1ch_options at h
  split at h
  · exact base _ (Or.inl rfl) _ (set_tx_corr_events _ _ _ _ h)
  · split at h
    · cases h; simp [tx_base_events]
    · split at h
      · exact base _ (Or.inr rfl) _ (set_tx_corr_events _ _ _ _ h)
      · exact base _ (Or.inl rfl) _ (set_tx_corr_events _ _ _ _ h)

lemma main_schedule_buffer_none (inp : RunInput) (events : List Event) :
    (main_schedule inp events).buffer_report = none := by
  unfold main_schedule tx_send_loop
  cases inp.time_now_1 with
  | none => rfl
  | some t =>
    cases inp.time_now_2 with
    | none => rfl
    | some t2 => rfl

/-! ## Claim theorems -/

/-- Claim C3: in EXTERNAL_PPS clock-sync mode, for every host time with
sub-second millisecond offset `msecs = t % 1000`: if
`msecs < 1000 - 200` the target second carried by the
set-clock-at-next-PPS instruction is the ceiling of the current time to
1-second resolution, and otherwise it is that ceiling plus one second.
The trailing conjuncts state that `ceil_seconds` really is that ceiling:
the least multiple of 1000 ms that is not below `t`. -/
theorem claim3_pps_target (t : Nat) :
    (t % 1000 < 1000 - max_host_clock_error_ms → pps_set_time t = ceil_seconds t) ∧
    (1000 - max_host_clock_error_ms ≤ t % 1000 → pps_set_time t = ceil_seconds t + 1000) ∧
    t ≤ ceil_seconds t ∧ ceil_seconds t % 1000 = 0 ∧ ceil_seconds t < t + 1000 := by
  have hm : t - 1000 * (t / 1000) = t % 1000 := by omega
  refine ⟨?_, ?_, ?_, ?_, ?_⟩
  · intro h
    simp only [pps_set_time, hm]
    rw [if_pos h]
  · intro h
    simp only [pps_set_time, hm]
    rw [if_neg (by omega)]
  · simp only [ceil_seconds]; omega
  · simp only [ceil_seconds]; omega
  · simp only [ceil_seconds]; omega

/-- Witness for `claim3_pps_target`, at the spec's own examples: host time
`…12.500` (offset 500 ms) targets the next second boundary, `…12.900`
(offset 900 ms) the one after it. -/
theorem claim3_witness :
    pps_set_time 12500 = ceil_seconds 12500 ∧
    pps_set_time 12900 = ceil_seconds 12900 + 1000 :=
  ⟨(claim3_pps_target 12500).1 (by decide), (claim3_pps_target 12900).2.1 (by decide)⟩

/-- Claim C6: `interpret_bracketed_list` returns a value exactly when the
input has length at least 2, its first and last characters form a matching
bracket pair among the three styles, and `std::stod` converts every
`getline`-delimited interior token; the value is the ordered sequence of
the tokens' parsed numbers, and on failure nothing is returned. -/
theorem claim6_bracketed_list (list : String) (delim : Char) :
    ((interpret_bracketed_list list delim).isSome ↔
      (2 ≤ list.data.length ∧
       (matching_bracket (list.data.headD ' ') (list.data.getLastD ' ')).isSome ∧
       ∀ t ∈ getline_tokens delim ((list.data.drop 1).dropLast), (stod t).isSome)) ∧
    (∀ l, interpret_bracketed_list list delim = some l →
      List.Forall₂ (fun t x => stod t = some x)
        (getline_tokens delim ((list.data.drop 1).dropLast)) l) := by
  unfold interpret_bracketed_list
  by_cases hlen : list.data.length < 2
  · rw [if_pos hlen]
    constructor
    · simp only [Option.isSome_none, Bool.false_eq_true, false_iff]
      rintro ⟨h2, -⟩
      omega
    · intro l h
      exact Option.noConfusion h
  · rw [if_neg hlen]
    cases hmb : matching_bracket (list.data.headD ' ') (list.data.getLastD ' ') with
    | none =>
      constructor
      · simp [hmb]
      · intro l h
        exact Option.noConfusion h
    | some i =>
      constructor
      · rw [parse_tokens_isSome]
        simp only [hmb, Option.isSome_some, true_and]
        constructor
        · intro h; exact ⟨by omega, h⟩
        · intro h; exact h.2
      · intro l h
        exact parse_tokens_forall2 _ _ h

/-- Witness for `claim6_bracketed_list`: on `"[1,2,3]"` the parser
succeeds and each comma-delimited token parses to the corresponding
element of `[1, 2, 3]`. -/
theorem claim6_witness :
    List.Forall₂ (fun t x => stod t = some x)
      (getline_tokens ',' ((("[1,2,3]" : String).data.drop 1).dropLast))
      [1, 2, 3] :=
  (claim6_bracketed_list "[1,2,3]" ',').2 [1, 2, 3] (by decide)

/-- Claim C8: the start instant carried by the `tx_loop` command equals the
device time read back after clock synchronization, rounded up to a whole
second, plus one second; the trailing conjuncts state that `ceil_seconds`
is that rounding (least multiple of 1000 ms not below `t`). -/
theorem claim8_start_instant (events : List Event) (gap_warning : Bool)
    (n_samples : Nat) (pri_sec : ℚ) (n_pulses : ℤ) (t : Nat) (n_sent : Nat) (ok : Bool) :
    (tx_send_loop events gap_warning n_samples pri_sec n_pulses (some t) n_sent ok).loop_args
      = some ⟨ceil_seconds t + 1000, n_samples, llround (1000000000 * pri_sec), n_pulses⟩ ∧
    t ≤ ceil_seconds t ∧ ceil_seconds t % 1000 = 0 ∧ ceil_seconds t < t + 1000 := by
  refine ⟨rfl, ?_, ?_, ?_⟩ <;> simp only [ceil_seconds] <;> omega

/-- Claim C10: a two-character input that is just a matching bracket pair
passes the minimum-length check, and its empty interior produces zero
`getline` tokens, so the parser succeeds with the empty sequence, for each
of the three bracket styles. -/
theorem claim10_empty_interior :
    interpret_bracketed_list "[]" ',' = some [] ∧
    interpret_bracketed_list "()" ',' = some [] ∧
    interpret_bracketed_list "\x7b\x7d" ',' = some [] := by
  decide

/-- Counterexample to claim C1: a run whose upload accepts 0 of 1 samples
(`n_sent = 0`, `read_count = 1`) still issues the loop command and, with a
successful `tx_loop`, terminates with status 0 — the upload mismatch only
prints the "error sending waveform data" message. -/
theorem claim1_counterexample :
    (mainRun ⟨1, 0, 1, "host", none, none, 1, some 4, none, some 0, some 0, 0, true⟩).upload_error
        = true ∧
    Event.loopStart ∈
      (mainRun ⟨1, 0, 1, "host", none, none, 1, some 4, none, some 0, some 0, 0, true⟩).events ∧
    (mainRun ⟨1, 0, 1, "host", none, none, 1, some 4, none, some 0, some 0, 0, true⟩).exit_code
        = 0 := by
  decide

/-- Claim C1 as amended: when the number of samples accepted by
`put_tx_data` differs from the waveform length, the run prints the upload
error message but does not abort: the loop command is still issued, and
the exit status is decided solely by the `tx_loop` reply (0 exactly when
it succeeds). -/
theorem claim1_upload_warn_only (events : List Event) (gap_warning : Bool)
    (n_samples : Nat) (pri_sec : ℚ) (n_pulses : ℤ) (t : Nat) (n_sent : Nat) (ok : Bool)
    (hmis : n_sent ≠ n_samples) :
    (tx_send_loop events gap_warning n_samples pri_sec n_pulses (some t) n_sent ok).upload_error
        = true ∧
    Event.loopStart ∈
      (tx_send_loop events gap_warning n_samples pri_sec n_pulses (some t) n_sent ok).events ∧
    ((tx_send_loop events gap_warning n_samples pri_sec n_pulses (some t) n_sent ok).exit_code = 0
        ↔ ok = true) := by
  refine ⟨decide_eq_true hmis, ?_, ?_⟩
  · simp [tx_send_loop]
  · simp only [tx_send_loop]
    cases ok <;> simp

/-- Witness for `claim1_upload_warn_only` at a concrete mismatching upload. -/
theorem claim1_witness :
    (tx_send_loop [] false 1 0 0 (some 0) 0 true).upload_error = true ∧
    Event.loopStart ∈ (tx_send_loop [] false 1 0 0 (some 0) 0 true).events ∧
    ((tx_send_loop [] false 1 0 0 (some 0) 0 true).exit_code = 0 ↔ true = true) :=
  claim1_upload_warn_only [] false 1 0 0 0 0 true (by decide)

/-- Claim C5: when the device reported a granularity (its hello query had a
value) and the run reaches the loop command, the gap warning is printed
exactly when `pri == 0` and the waveform length is not a multiple of the
granularity; the warning is non-fatal (the loop command is still issued),
and any positive `pri` suppresses it regardless of length. -/
theorem claim5_granularity_warning (inp : RunInput) (events : List Event)
    (g t1 t2 : Nat) (hg : inp.granularity = some g)
    (h1 : inp.time_now_1 = some t1) (h2 : inp.time_now_2 = some t2) :
    ((main_schedule inp events).gap_warning = true ↔
      (inp.pri_sec = 0 ∧ inp.read_count % g ≠ 0)) ∧
    Event.loopStart ∈ (main_schedule inp events).events ∧
    (0 < inp.pri_sec → (main_schedule inp events).gap_warning = false) := by
  simp only [main_schedule, h1, h2, tx_send_loop, granularity_gap_warning, hg]
  refine ⟨decide_eq_true_iff, by simp, ?_⟩
  intro hp
  apply decide_eq_false
  rintro ⟨h0, -⟩
  rw [h0] at hp
  exact lt_irrefl 0 hp

/-- Witness for `claim5_granularity_warning`: length 1000, granularity 256,
`pri = 0` produces the gap warning (1000 is not a multiple of 256). -/
theorem claim5_witness :
    (main_schedule ⟨1, 0, 1000, "host", none, none, 1000000, some 400000000,
        some 256, some 0, some 0, 1000, true⟩ []).gap_warning = true :=
  ((claim5_granularity_warning
      ⟨1, 0, 1000, "host", none, none, 1000000, some 400000000, some 256, some 0, some 0,
        1000, true⟩
      [] 256 0 0 rfl rfl rfl).1).mpr ⟨rfl, by decide⟩

/-- Claim C7: for positive duration and nonnegative pri, the repetition
count handed to the loop command is `llround(duration / pri)` when
`pri > 0`, and 0 (the free-running marker) when `pri == 0`. -/
theorem claim7_repetitions (inp : RunInput) (events : List Event) (la : LoopArgs)
    (hd : 0 < inp.duration_sec) (hp : 0 ≤ inp.pri_sec)
    (hla : (main_schedule inp events).loop_args = some la) :
    (0 < inp.pri_sec → la.n_pulses = llround (inp.duration_sec / inp.pri_sec)) ∧
    (inp.pri_sec = 0 → la.n_pulses = 0) := by
  unfold main_schedule at hla
  cases h1 : inp.time_now_1 with
  | none => rw [h1] at hla; exact Option.noConfusion hla
  | some t1 =>
    rw [h1] at hla
    unfold tx_send_loop at hla
    cases h2 : inp.time_now_2 with
    | none => rw [h2] at hla; exact Option.noConfusion hla
    | some t2 =>
      rw [h2] at hla
      obtain rfl := Option.some.inj hla
      constructor
      · intro hpos
        simp only [n_pulses_calc, if_pos hpos]
      · intro h0
        simp only [n_pulses_calc, h0, lt_irrefl, if_false]

/-- Witness for `claim7_repetitions`: duration 10 s, pri 2 s gives the
repetition count `llround(10 / 2) = 5`. -/
theorem claim7_witness :
    (⟨1000, 4, llround (1000000000 * 2), n_pulses_calc 10 2⟩ : LoopArgs).n_pulses
      = llround ((10 : ℚ) / 2) :=
  (claim7_repetitions
      ⟨10, 2, 4, "host", none, none, 100, some 16, none, some 0, some 0, 4, true⟩
      [] ⟨1000, 4, llround (1000000000 * 2), n_pulses_calc 10 2⟩
      (by decide) (by decide) rfl).1 (by decide)

/-- Claim C9: when the device's hello query returns no value the
granularity check is skipped entirely: the gap warning is never printed
(whatever `pri` and the waveform length are), and the run proceeds to the
loop command without error, its status decided by the `tx_loop` reply. -/
theorem claim9_hello_skip (inp : RunInput) (events : List Event) (t1 t2 : Nat)
    (hg : inp.granularity = none)
    (h1 : inp.time_now_1 = some t1) (h2 : inp.time_now_2 = some t2) :
    (main_schedule inp events).gap_warning = false ∧
    Event.loopStart ∈ (main_schedule inp events).events ∧
    (main_schedule inp events).exit_code = (if inp.tx_loop_ok then 0 else 1) := by
  simp only [main_schedule, h1, h2, tx_send_loop, granularity_gap_warning, hg]
  simp

/-- Witness for `claim9_hello_skip`: `pri = 0` and a length (1000) that is
not a multiple of the device's actual granularity (say 256), yet no
warning and a clean run because hello returned nothing. -/
theorem claim9_witness :
    (main_schedule ⟨1, 0, 1000, "host", none, none, 1000000, some 400000000,
        none, some 0, some 0, 1000, true⟩ []).gap_warning = false ∧
    Event.loopStart ∈ (main_schedule ⟨1, 0, 1000, "host", none, none, 1000000,
        some 400000000, none, some 0, some 0, 1000, true⟩ []).events := by
  have h := claim9_hello_skip
    ⟨1, 0, 1000, "host", none, none, 1000000, some 400000000, none, some 0, some 0, 1000, true⟩
    [] 0 0 rfl rfl rfl
  exact ⟨h.1, h.2.1⟩

/-- Counterexample to claim C2: a run that fails the buffer-fit validation
(10 samples, 4-byte buffer, so 1 sample of capacity) and exits with status
1 has already issued the clock-set command (and the rate/freq/gain
commands): device state is mutated before the validation failure exit. -/
theorem claim2_counterexample :
    (mainRun ⟨1, 0, 10, "host", none, none, 1, some 4, none, none, none, 0, true⟩).buffer_report
        = some (1, 10) ∧
    (mainRun ⟨1, 0, 10, "host", none, none, 1, some 4, none, none, none, 0, true⟩).exit_code
        = 1 ∧
    Event.clockSet ∈
      (mainRun ⟨1, 0, 10, "host", none, none, 1, some 4, none, none, none, 0, true⟩).events := by
  decide

/-- Claim C2 as amended: the pure input-parsing failures (non-positive
duration, negative pri, unreadable or empty waveform file) abort with no
device command issued; the buffer-fit (`WaveformTooLarge`) failure,
however, happens only after the clock, rate, frequency and gain have been
set — it does still precede the waveform upload and the loop command, and
exits with status 1. -/
theorem claim2_validation_order (inp : RunInput) :
    ((inp.duration_sec ≤ 0 ∨ inp.pri_sec < 0 ∨ inp.read_count = 0) →
        (mainRun inp).events = [] ∧ (mainRun inp).exit_code = 1) ∧
    (∀ rep, (mainRun inp).buffer_report = some rep →
        Event.clockSet ∈ (mainRun inp).events ∧
        Event.rateSet ∈ (mainRun inp).events ∧
        Event.freqSet ∈ (mainRun inp).events ∧
        Event.gainSet ∈ (mainRun inp).events ∧
        Event.upload ∉ (mainRun inp).events ∧
        Event.loopStart ∉ (mainRun inp).events ∧
        (mainRun inp).exit_code = 1) := by
  constructor
  · intro h
    unfold mainRun
    by_cases h1 : inp.duration_sec ≤ 0
    · rw [if_pos h1]; exact ⟨rfl, rfl⟩
    · rw [if_neg h1]
      by_cases h2 : inp.pri_sec < 0
      · rw [if_pos h2]; exact ⟨rfl, rfl⟩
      · rw [if_neg h2]
        have h3 : inp.read_count = 0 := by
          rcases h with h | h | h
          · exact absurd h h1
          · exact absurd h h2
          · exact h
        rw [if_pos h3]; exact ⟨rfl, rfl⟩
  · intro rep
    unfold mainRun
    by_cases h1 : inp.duration_sec ≤ 0
    · rw [if_pos h1]; intro h; exact Option.noConfusion h
    · rw [if_neg h1]
      by_cases h2 : inp.pri_sec < 0
      · rw [if_pos h2]; intro h; exact Option.noConfusion h
      · rw [if_neg h2]
        by_cases h3 : inp.read_count = 0
        · rw [if_pos h3]; intro h; exact Option.noConfusion h
        · rw [if_neg h3]
          unfold main_setup
          rcases hsco : set_common_options inp.time_source with ⟨ev1, ok1⟩
          cases ok1
          · intro h; exact Option.noConfusion h
          · rcases hstx : set_tx_1ch_options inp.tx_iq_bias inp.tx_iq_corr with ⟨ev2, ok2⟩
            cases ok2
            · intro h; exact Option.noConfusion h
            · simp only []
              unfold main_checks
              by_cases h4 : 0 < inp.pri_sec ∧ inp.pri_sec < (inp.read_count : ℚ) / inp.tx_rate
              · rw [if_pos h4]; intro h; exact Option.noConfusion h
              · rw [if_neg h4]
                rcases hbb : inp.buffer_bytes with _ | bb
                · intro h; exact Option.noConfusion h
                · simp only []
                  rcases hbf : buffer_fit inp.read_count bb with _ | rep'
                  · intro h
                    simp only [] at h
                    rw [main_schedule_buffer_none] at h
                    exact Option.noConfusion h
                  · intro h
                    obtain rfl := set_common_options_events _ _ hsco
                    have hev2 := set_tx_1ch_options_events _ _ _ _ hstx
                    have hbase := set_tx_1ch_options_base_mem _ _ _ _ hstx
                    refine ⟨?_, ?_, ?_, ?_, ?_, ?_, rfl⟩
                    · simp [set_network_options]
                    · simp only [set_network_options, List.append_nil, List.mem_append,
                        List.mem_singleton]
                      exact Or.inr hbase.1
                    · simp only [set_network_options, List.append_nil, List.mem_append,
                        List.mem_singleton]
                      exact Or.inr hbase.2.1
                    · simp only [set_network_options, List.append_nil, List.mem_append,
                        List.mem_singleton]
                      exact Or.inr hbase.2.2
                    · intro hmem
                      simp only [set_network_options, List.append_nil, List.mem_append,
                        List.mem_singleton] at hmem
                      rcases hmem with hmem | hmem
                      · exact absurd hmem (by decide)
                      · rcases hev2 _ hmem with h' | h' | h' | h' | h' <;>
                          exact absurd h' (by decide)
                    · intro hmem
                      simp only [set_network_options, List.append_nil, List.mem_append,
                        List.mem_singleton] at hmem
                      rcases hmem with hmem | hmem
                      · exact absurd hmem (by decide)
                      · rcases hev2 _ hmem with h' | h' | h' | h' | h' <;>
                          exact absurd h' (by decide)

/-- Witness for `claim2_validation_order`: a run with duration 0 aborts
with no device command; the buffer-fit-failing run of
`claim2_counterexample` exits 1 without ever uploading. -/
theorem claim2_witness :
    (mainRun ⟨0, 0, 0, "host", none, none, 0, none, none, none, none, 0, true⟩).events = [] ∧
    Event.rateSet ∈
      (mainRun ⟨1, 0, 10, "host", none, none, 1, some 4, none, none, none, 0, true⟩).events ∧
    Event.upload ∉
      (mainRun ⟨1, 0, 10, "host", none, none, 1, some 4, none, none, none, 0, true⟩).events :=
  ⟨((claim2_validation_order
        ⟨0, 0, 0, "host", none, none, 0, none, none, none, none, 0, true⟩).1
      (Or.inl (by decide))).1,
   ((claim2_validation_order
        ⟨1, 0, 10, "host", none, none, 1, some 4, none, none, none, 0, true⟩).2
      (1, 10) (by decide)).2.1,
   ((claim2_validation_order
        ⟨1, 0, 10, "host", none, none, 1, some 4, none, none, none, 0, true⟩).2
      (1, 10) (by decide)).2.2.2.2.1⟩

/-- Claim C4: the buffer-fit check succeeds exactly when the waveform
length is at most `device_buffer_bytes / sample_width_bytes` (integer
division); on failure it reports the available and needed sample counts,
and the run exits with status 1 without reaching the upload/loop stage. -/
theorem claim4_buffer_fit (n_samples tx_buffer_size_bytes : Nat)
    (inp : RunInput) (events : List Event) :
    (buffer_fit n_samples tx_buffer_size_bytes = none ↔
        n_samples ≤ tx_buffer_size_bytes / wire_sample_bytes) ∧
    (tx_buffer_size_bytes / wire_sample_bytes < n_samples →
        buffer_fit n_samples tx_buffer_size_bytes
          = some (tx_buffer_size_bytes / wire_sample_bytes, n_samples)) ∧
    (∀ rep, (main_checks inp events).buffer_report = some rep →
        (main_checks inp events).exit_code = 1 ∧
        (main_checks inp events).events = events ∧
        (main_checks inp events).loop_args = none) := by
  refine ⟨?_, ?_, ?_⟩
  · simp only [buffer_fit]
    split
    · rename_i hlt
      constructor
      · intro h; exact Option.noConfusion h
      · intro h; exact absurd h (by omega)
    · rename_i hge
      constructor
      · intro _; omega
      · intro _; rfl
  · intro hlt
    simp only [buffer_fit]
    rw [if_pos hlt]
  · intro rep
    unfold main_checks
    by_cases h4 : 0 < inp.pri_sec ∧ inp.pri_sec < (inp.read_count : ℚ) / inp.tx_rate
    · rw [if_pos h4]; intro h; exact Option.noConfusion h
    · rw [if_neg h4]
      rcases hbb : inp.buffer_bytes with _ | bb
      · intro h; exact Option.noConfusion h
      · simp only []
        rcases hbf : buffer_fit inp.read_count bb with _ | rep'
        · intro h
          simp only [] at h
          rw [main_schedule_buffer_none] at h
          exact Option.noConfusion h
        · intro h
          exact ⟨rfl, rfl, rfl⟩

/-- Witness for `claim4_buffer_fit`, at the spec's own numbers: capacity
1,000,000 samples (4,000,000 bytes), length 1,000,001 fails with the exact
report, length 999,999 passes; a failing run exits with status 1. -/
theorem claim4_witness :
    buffer_fit 1000001 4000000 = some (1000000, 1000001) ∧
    buffer_fit 999999 4000000 = none ∧
    (main_checks ⟨1, 0, 10, "host", none, none, 1, some 4, none, none, none, 0, true⟩
        []).exit_code = 1 :=
  ⟨(claim4_buffer_fit 1000001 4000000
        ⟨1, 0, 10, "host", none, none, 1, some 4, none, none, none, 0, true⟩ []).2.1
      (by decide),
   (claim4_buffer_fit 999999 4000000
        ⟨1, 0, 10, "host", none, none, 1, some 4, none, none, none, 0, true⟩ []).1.mpr
      (by decide),
   ((claim4_buffer_fit 10 4
        ⟨1, 0, 10, "host", none, none, 1, some 4, none, none, none, 0, true⟩ []).2.2
      (1, 10) (by decide)).1⟩

end VxsdrExamples
